import Mathlib

/-!
Shallow embedding of the `hold` blob-storage core (src/hold) and its
S3-compatible adapter (src/hold-s3), for checking the specification's
claims. Each Provider operation of the adapter is modelled as a pure
function of its inputs and of the backend call's outcome (the result of
the corresponding rusoto S3 client call), mirroring the Rust
classification logic statement by statement. The Rust `unwrap()` panic
is made explicit through the `Exec` outcome type.
-/

namespace Hold

/-- In-memory byte buffer (`Vec<u8>` / `Bytes`); bytes as naturals. -/
abbrev Bytes := List Nat

/-- rusoto_s3::GetObjectError — the only service-error variant of S3
`GetObject` in the rusoto version used is `NoSuchKey`. -/
inductive GetObjectError where
  | NoSuchKey (msg : String)

/-- rusoto_s3::HeadObjectError — single variant `NoSuchKey`. -/
inductive HeadObjectError where
  | NoSuchKey (msg : String)

/-- rusoto_s3::PutObjectError — an enum with no variants. -/
inductive PutObjectError : Type

/-- rusoto_s3::DeleteObjectError — an enum with no variants. -/
inductive DeleteObjectError : Type

/-- rusoto_core::request::BufferedHttpResponse: the raw HTTP response
carried by `RusotoError::Unknown`; only the fields the adapter reads. -/
structure BufferedHttpResponse where
  status : Nat
  body : Bytes

/-- rusoto_core::RusotoError, generic over the service error type. -/
inductive RusotoError (E : Type) where
  | Service (err : E)
  | HttpDispatch (cause : String)
  | Credentials (cause : String)
  | Validation (message : String)
  | ParseError (message : String)
  | Unknown (response : BufferedHttpResponse)
  | Blocked

/-- Model of `Box<dyn std::error::Error + Send + Sync>`: the chained
cause stored inside the taxonomy errors. Each injection preserves the
original backend error value in full. -/
inductive ErrSource where
  | getObject (e : RusotoError GetObjectError)
  | headObject (e : RusotoError HeadObjectError)
  | putObject (e : RusotoError PutObjectError)
  | deleteObject (e : RusotoError DeleteObjectError)
  | other (message : String)

/-- std::io::ErrorKind, restricted to the kinds this codebase produces
plus a representative extra. -/
inductive IoErrorKind where
  | NotFound
  | PermissionDenied
  | Other

/-- The payload handed to `std::io::Error::new`: either a chained source
error or a plain message string. -/
inductive IoPayload where
  | source (e : ErrSource)
  | text (message : String)

/-- std::io::Error: a kind plus its payload. -/
structure IoErr where
  kind : IoErrorKind
  payload : IoPayload

/-- The `ByteStream` type alias of src/hold/src/blob.rs: a finite lazy
sequence of fallible byte chunks, modelled as the list of chunk outcomes
the stream produces when driven to completion. -/
abbrev ByteStream := List (Except IoErr Bytes)

/-- src/hold/src/blob.rs `Blob`: key, declared size, single-pass content
stream. -/
structure Blob where
  key : String
  size : Nat
  content_stream : ByteStream

/-- `Blob::new` (src/hold/src/blob.rs lines 24–34). -/
def Blob.new (key : String) (size : Nat) (stream : ByteStream) : Blob :=
  { key := key, size := size, content_stream := stream }

/-- `Blob::from_bytes` (src/hold/src/blob.rs lines 36–42): wraps the
buffer as a single-chunk stream, size = buffer length. -/
def Blob.from_bytes (key : String) (content : Bytes) : Blob :=
  Blob.new key content.length [Except.ok content]

/-- `Blob::empty` (src/hold/src/blob.rs lines 44–46): declared size with
an empty stream. -/
def Blob.empty (key : String) (size : Nat) : Blob :=
  Blob.new key size []

/-- `Blob::into_byte_stream` (src/hold/src/blob.rs lines 56–58):
consumes the Blob, returning its content stream. -/
def Blob.into_byte_stream (self : Blob) : ByteStream :=
  self.content_stream

/-- Observation function: a caller driving a `ByteStream` to completion,
concatenating the chunks; the first failing chunk terminates the read
early with that error. Models the read discipline of §4.1 of the spec;
not itself source code. -/
def ByteStream.readAll : ByteStream → Except IoErr Bytes
  | [] => Except.ok []
  | Except.error e :: _ => Except.error e
  | Except.ok chunk :: rest =>
    match ByteStream.readAll rest with
    | Except.ok acc => Except.ok (chunk ++ acc)
    | Except.error e => Except.error e

/-- src/hold/src/error.rs `Error`: the closed three-kind taxonomy. -/
inductive Error where
  | IDNotFound (id : String) (source : ErrSource)
  | ProviderError (source : ErrSource)
  | BodyError (message : String)

/-- `Error::not_found` (src/hold/src/error.rs lines 19–24). -/
def Error.not_found (id : String) (source : ErrSource) : Error :=
  Error.IDNotFound id source

/-- `Error::provider` (src/hold/src/error.rs lines 26–30). -/
def Error.provider (source : ErrSource) : Error :=
  Error.ProviderError source

/-- `Error::body_error` (src/hold/src/error.rs lines 32–36). -/
def Error.body_error (message : String) : Error :=
  Error.BodyError message

/-- `impl From<Error> for std::io::Error` (src/hold/src/error.rs lines
39–48). -/
def Error.toIoError : Error → IoErr
  | Error.IDNotFound _ source => { kind := IoErrorKind.NotFound, payload := IoPayload.source source }
  | Error.ProviderError source => { kind := IoErrorKind.Other, payload := IoPayload.source source }
  | Error.BodyError message => { kind := IoErrorKind.Other, payload := IoPayload.text message }

/-- `hold::Result<T> = Result<T, Error>` (src/hold/src/lib.rs line 7). -/
abbrev Result (α : Type) := Except Error α

/-- Outcome of running a Rust expression that may panic. -/
inductive Exec (α : Type) where
  | ret (v : α)
  | panicked (msg : String)

/-- Rust `Option::unwrap()` on the `Option<i64>` content length: panics
on `None`. -/
def unwrapI64 : Option Int → Exec Int
  | some v => Exec.ret v
  | none => Exec.panicked "called Option::unwrap() on a None value"

/-- Rust `as usize` cast from i64 (reinterpret mod 2^64). -/
def i64AsUsize (n : Int) : Nat :=
  (n % (2 ^ 64 : Int)).toNat

/-- rusoto_s3::GetObjectOutput, restricted to the fields the adapter
reads: the optional streaming body and the optional content length. -/
structure GetObjectOutput where
  body : Option ByteStream
  content_length : Option Int

/-- rusoto_s3::PutObjectOutput; the adapter ignores its fields. -/
structure PutObjectOutput where
  e_tag : Option String

/-- rusoto_s3::HeadObjectOutput; the adapter ignores its fields. -/
structure HeadObjectOutput where
  content_length : Option Int

/-- rusoto_s3::DeleteObjectOutput; the adapter ignores its fields. -/
structure DeleteObjectOutput where
  delete_marker : Option Bool

/-- src/hold-s3/src/lib.rs `S3Provider`; the configured client is
abstracted away (each operation takes the backend call's outcome as an
explicit argument), the bucket name is kept. -/
structure S3Provider where
  bucket : String

/-- `S3Provider::get_blob` (src/hold-s3/src/lib.rs lines 61–91) as a
function of the key and of the `get_object` call's outcome. `NoSuchKey`
service errors yield `Ok(None)`; every other error is wrapped as
`ProviderError`; on success a missing body yields `BodyError`, and
otherwise the Blob is built with `content_length.unwrap() as usize`,
which panics when the content length is absent. -/
def S3Provider.get_blob (self : S3Provider) (key : String)
    (resp : Except (RusotoError GetObjectError) GetObjectOutput) :
    Exec (Result (Option Blob)) :=
  match resp with
  | Except.error err =>
    match err with
    | RusotoError.Service e =>
      match e with
      | GetObjectError.NoSuchKey _ => Exec.ret (Except.ok none)
    | _ => Exec.ret (Except.error (Error.provider (ErrSource.getObject err)))
  | Except.ok output =>
    match output.body with
    | none => Exec.ret (Except.error (Error.body_error "no body found in S3 response"))
    | some body =>
      match unwrapI64 output.content_length with
      | Exec.panicked m => Exec.panicked m
      | Exec.ret n => Exec.ret (Except.ok (some (Blob.new key (i64AsUsize n) body)))

/-- `S3Provider::store_blob` (src/hold-s3/src/lib.rs lines 94–111): key
and size are taken from the input Blob before its stream is consumed
into the request body; backend success maps to `Blob::empty(key, size)`,
backend failure to `ProviderError`. -/
def S3Provider.store_blob (self : S3Provider) (blob : Blob)
    (resp : Except (RusotoError PutObjectError) PutObjectOutput) :
    Result Blob :=
  let key := blob.key
  let size := blob.size
  (resp.map (fun _ => Blob.empty key size)).mapError
    (fun err => Error.provider (ErrSource.putObject err))

/-- `S3Provider::is_blob_present` (src/hold-s3/src/lib.rs lines
114–146) as a function of the key and of the `head_object` call's
outcome: success maps to `Ok(true)`; a `NoSuchKey` service error or an
unknown response with HTTP status 404 maps to `Ok(false)`; every other
error is wrapped as `ProviderError`. -/
def S3Provider.is_blob_present (self : S3Provider) (key : String)
    (res : Except (RusotoError HeadObjectError) HeadObjectOutput) :
    Result Bool :=
  match res with
  | Except.ok _ => Except.ok true
  | Except.error err =>
    match err with
    | RusotoError.Service e =>
      match e with
      | HeadObjectError.NoSuchKey _ => Except.ok false
    | RusotoError.Unknown response =>
      if response.status == 404 then
        Except.ok false
      else
        Except.error (Error.provider (ErrSource.headObject err))
    | _ => Except.error (Error.provider (ErrSource.headObject err))

/-- `S3Provider::delete_blob` (src/hold-s3/src/lib.rs lines 149–162):
backend success (including deleting an absent key, which S3 accepts)
maps to `Ok(())`; backend failure to `ProviderError`. -/
def S3Provider.delete_blob (self : S3Provider) (key : String)
    (resp : Except (RusotoError DeleteObjectError) DeleteObjectOutput) :
    Result Unit :=
  (resp.map (fun _ => ())).mapError
    (fun err => Error.provider (ErrSource.deleteObject err))

/-- Discriminator: whether an operation result is the `IDNotFound`
taxonomy kind. -/
def isNotFoundResult {α : Type} : Result α → Bool
  | Except.error (Error.IDNotFound _ _) => true
  | _ => false

/-- Claim C1: whenever the backend reports the key absent on a fetch
(a `GetObject` service error, whose only shape is `NoSuchKey`),
`get_blob` returns `Ok(None)` and never an error. -/
theorem get_blob_absence_is_ok_none :
    ∀ (p : S3Provider) (key : String) (e : GetObjectError),
      p.get_blob key (Except.error (RusotoError.Service e)) = Exec.ret (Except.ok none) := by
  intro p key e
  cases e
  rfl

/-- Claim C2: `is_blob_present` returns `Ok(false)` for both absence
shapes — the `NoSuchKey` service error and an unknown response with
HTTP status 404 — and wraps every other backend failure as
`ProviderError` carrying the original error. -/
theorem is_blob_present_absence_and_failures :
    ∀ (p : S3Provider) (key : String),
      (∀ msg, p.is_blob_present key (Except.error (RusotoError.Service (HeadObjectError.NoSuchKey msg)))
          = Except.ok false)
      ∧ (∀ response, p.is_blob_present key (Except.error (RusotoError.Unknown response))
          = if response.status == 404 then Except.ok false
            else Except.error (Error.ProviderError (ErrSource.headObject (RusotoError.Unknown response))))
      ∧ (∀ cause, p.is_blob_present key (Except.error (RusotoError.HttpDispatch cause))
          = Except.error (Error.ProviderError (ErrSource.headObject (RusotoError.HttpDispatch cause))))
      ∧ (∀ cause, p.is_blob_present key (Except.error (RusotoError.Credentials cause))
          = Except.error (Error.ProviderError (ErrSource.headObject (RusotoError.Credentials cause))))
      ∧ (∀ message, p.is_blob_present key (Except.error (RusotoError.Validation message))
          = Except.error (Error.ProviderError (ErrSource.headObject (RusotoError.Validation message))))
      ∧ (∀ message, p.is_blob_present key (Except.error (RusotoError.ParseError message))
          = Except.error (Error.ProviderError (ErrSource.headObject (RusotoError.ParseError message))))
      ∧ p.is_blob_present key (Except.error RusotoError.Blocked)
          = Except.error (Error.ProviderError (ErrSource.headObject RusotoError.Blocked)) := by
  intro p key
  exact ⟨fun _ => rfl, fun _ => rfl, fun _ => rfl, fun _ => rfl, fun _ => rfl, fun _ => rfl, rfl⟩

/-- Claim C3: `delete_blob` succeeds on any backend acceptance
(including deleting an already-absent key, which the backend accepts),
wraps any backend failure as `ProviderError`, and never produces the
`IDNotFound` kind for any backend outcome. -/
theorem delete_blob_idempotent_never_not_found :
    (∀ (p : S3Provider) (key : String) (out : DeleteObjectOutput),
        p.delete_blob key (Except.ok out) = Except.ok ())
    ∧ (∀ (p : S3Provider) (key : String) (err : RusotoError DeleteObjectError),
        p.delete_blob key (Except.error err)
          = Except.error (Error.ProviderError (ErrSource.deleteObject err)))
    ∧ (∀ (p : S3Provider) (key : String) (resp : Except (RusotoError DeleteObjectError) DeleteObjectOutput),
        isNotFoundResult (p.delete_blob key resp) = false) := by
  refine ⟨fun _ _ _ => rfl, fun _ _ _ => rfl, fun p key resp => ?_⟩
  cases resp <;> rfl

/-- Claim C4: on backend success `store_blob` returns a Blob with the
input's key and size and an empty content stream (the payload is not
echoed back); on backend failure it returns `ProviderError`. -/
theorem store_blob_success_empty_echo :
    (∀ (p : S3Provider) (blob : Blob) (out : PutObjectOutput),
        p.store_blob blob (Except.ok out) = Except.ok (Blob.empty blob.key blob.size))
    ∧ (∀ (key : String) (size : Nat),
        (Blob.empty key size).key = key ∧ (Blob.empty key size).size = size
          ∧ (Blob.empty key size).into_byte_stream = [])
    ∧ (∀ (p : S3Provider) (blob : Blob) (err : RusotoError PutObjectError),
        p.store_blob blob (Except.error err)
          = Except.error (Error.ProviderError (ErrSource.putObject err))) := by
  exact ⟨fun _ _ _ => rfl, fun _ _ => ⟨rfl, rfl, rfl⟩, fun _ _ _ => rfl⟩

/-- Claim C5 (failing input): on a successful backend fetch response
that carries a body but no content length, `get_blob` panics on
`content_length.unwrap()` instead of returning a value — contradicting
the spec's rule that all failures are returned as values. -/
theorem get_blob_panics_without_content_length :
    S3Provider.get_blob { bucket := "bucket" } "key"
        (Except.ok { body := some [Except.ok [104, 101, 108, 108, 111]], content_length := none })
      = Exec.panicked "called Option::unwrap() on a None value" := rfl

/-- Claim C6: converting the taxonomy into `std::io::Error` maps
`IDNotFound` to the NotFound kind and both `ProviderError` and
`BodyError` to the Other kind, for every value of each variant. -/
theorem error_into_io_error_kind_mapping :
    (∀ (id : String) (source : ErrSource),
        (Error.IDNotFound id source).toIoError
          = { kind := IoErrorKind.NotFound, payload := IoPayload.source source })
    ∧ (∀ source : ErrSource,
        (Error.ProviderError source).toIoError
          = { kind := IoErrorKind.Other, payload := IoPayload.source source })
    ∧ (∀ message : String,
        (Error.BodyError message).toIoError
          = { kind := IoErrorKind.Other, payload := IoPayload.text message }) := by
  exact ⟨fun _ _ => rfl, fun _ => rfl, fun _ => rfl⟩

/-- Claim C7: when the backend reports success for a fetch but the
response has no body, `get_blob` returns the `BodyError` kind with a
descriptive message — not `ProviderError` and not a success value —
regardless of the reported content length. -/
theorem get_blob_missing_body_is_body_error :
    ∀ (p : S3Provider) (key : String) (cl : Option Int),
      p.get_blob key (Except.ok { body := none, content_length := cl })
        = Exec.ret (Except.error (Error.BodyError "no body found in S3 response")) := by
  intro p key cl
  rfl

/-- Claim C8: `Blob::from_bytes` yields a Blob with the given key, size
equal to the buffer's length, and a content stream of exactly one
successful chunk equal to the buffer, so reading the stream out returns
the original buffer. -/
theorem from_bytes_single_chunk_roundtrip :
    ∀ (key : String) (content : Bytes),
      (Blob.from_bytes key content).key = key
      ∧ (Blob.from_bytes key content).size = content.length
      ∧ (Blob.from_bytes key content).into_byte_stream = [Except.ok content]
      ∧ ByteStream.readAll (Blob.from_bytes key content).into_byte_stream = Except.ok content := by
  intro key content
  refine ⟨rfl, rfl, rfl, ?_⟩
  simp [Blob.from_bytes, Blob.new, Blob.into_byte_stream, ByteStream.readAll]

/-- Claim C9: `Blob::empty` yields, for every key and every declared
size (nonzero included), a Blob whose size is the declared size and
whose content stream is immediately exhausted — zero chunks and zero
bytes read, without error; construction is total and never validates
the stream length against the declared size. -/
theorem empty_blob_stream_exhausted :
    ∀ (key : String) (size : Nat),
      (Blob.empty key size).key = key
      ∧ (Blob.empty key size).size = size
      ∧ (Blob.empty key size).into_byte_stream = []
      ∧ ByteStream.readAll (Blob.empty key size).into_byte_stream = Except.ok [] := by
  intro key size
  exact ⟨rfl, rfl, rfl, rfl⟩

/-- Claim C10: `Blob::new` and `Blob::from_bytes` accept every string
key, the empty string included, and return it unchanged from `key()`;
the Provider operations do not inspect the key either — their results
on the empty key coincide with their results on any other key. -/
theorem empty_string_key_accepted :
    (∀ (key : String) (size : Nat) (stream : ByteStream), (Blob.new key size stream).key = key)
    ∧ (∀ content : Bytes,
        (Blob.from_bytes "" content).key = "" ∧ (Blob.from_bytes "" content).size = content.length)
    ∧ (∀ (size : Nat) (stream : ByteStream), (Blob.new "" size stream).key = "")
    ∧ (∀ (p : S3Provider) (res : Except (RusotoError HeadObjectError) HeadObjectOutput),
        p.is_blob_present "" res = p.is_blob_present "nonempty" res)
    ∧ (∀ (p : S3Provider) (resp : Except (RusotoError DeleteObjectError) DeleteObjectOutput),
        p.delete_blob "" resp = p.delete_blob "nonempty" resp)
    ∧ (∀ (p : S3Provider) (e : GetObjectError),
        p.get_blob "" (Except.error (RusotoError.Service e)) = Exec.ret (Except.ok none)) := by
  refine ⟨fun _ _ _ => rfl, fun _ => ⟨rfl, rfl⟩, fun _ _ => rfl, fun _ _ => rfl, fun _ _ => rfl, ?_⟩
  intro p e
  cases e
  rfl

end Hold
